import Mathlib

/-!
Shallow embedding of the ASKFILE browser client (React) state/transition
logic.  The repository contains several coexisting `App` variants:

* `src/codigo/frontend/src/App.js`   — anonymous session-id variant
  (modelled below as the `Codigo` namespace);
* `src/unnamed/part_001` (first half) — token-authenticated variant
  (modelled as the `TokenAuth` namespace);
* `src/unnamed/part_001` (second half) — no-auth variant (its handlers
  coincide with the token variant except for auth; modelled only where a
  claim needs it);
* `src/frontend/src/components/LoginView/LoginView.js` — login/register
  form (modelled as the `Login` namespace);
* `src/unnamed/part_002` / `part_003` — ChatView / HistoryView
  presentational components (only their state-relevant fragments are
  modelled: the send-button disabled predicate and the on-mount history
  fetch).

Each React handler becomes a pure function from the container state (plus
the environment inputs it reads: current time string, the user's answer to
`window.confirm`, and the network outcome, passed as an oracle value) to
the new state together with the list of observable effects (alerts and
network requests) it produced, in order.
-/

/-- Network endpoints the client can call. -/
inductive NetCall
  | chat
  | upload
  | history
  | historyDelete
  | login
  | googleLogin
  | registerCall
deriving Repr, DecidableEq

/-- Observable user/network effects emitted by a handler, in program order.
`window.confirm` answers are supplied as inputs instead, and `console`
logging is not observable to the user, so neither is recorded. -/
inductive Effect
  | alert (msg : String)
  | request (call : NetCall)
deriving Repr, DecidableEq

/-- True on an `Effect.alert`. -/
def Effect.isAlert : Effect → Bool
  | .alert _ => true
  | .request _ => false

/-- True on an `Effect.request`. -/
def Effect.isRequest : Effect → Bool
  | .alert _ => false
  | .request _ => true

/-- Whether the effect list contains at least one blocking alert. -/
def hasAlert (l : List Effect) : Bool := l.any Effect.isAlert

/-- Whether the effect list contains at least one network request. -/
def hasRequest (l : List Effect) : Bool := l.any Effect.isRequest

/-- A chat transcript entry, as built by `handleSendMessage` in every
variant: `{ id, text, sender, timestamp, sources, isError }`.  The success
paths set `sources` explicitly and omit `isError` (JS `undefined`, falsy,
modelled `false`); the error path omits `sources` (modelled `[]`). -/
structure ChatMsg where
  id : Nat
  text : String
  sender : String
  timestamp : String
  sources : List String
  isError : Bool
deriving Repr, DecidableEq

/-- Uploaded-file descriptor of the `codigo` variant:
`{ id, name, summary, uploadDate, isTemporary }`. -/
structure UploadedFile where
  id : String
  name : String
  summary : String
  uploadDate : String
  isTemporary : Bool
deriving Repr, DecidableEq

/-- Uploaded-file descriptor of the `part_001` variants:
`{ id, name, summary, uploadDate }` (no temporary flag). -/
structure UploadedFile001 where
  id : String
  name : String
  summary : String
  uploadDate : String
deriving Repr, DecidableEq

/-- A history entry as consumed by the history view. -/
structure HistEntry where
  question : String
  answer : String
  timestamp : String
  sources : List String
deriving Repr, DecidableEq

/-- The user record of the token-authenticated variant. -/
structure UserRec where
  email : String
  name : String
deriving Repr, DecidableEq

/-- The `localStorage` keys the token-authenticated variant uses:
`token` and the serialized `user`. -/
structure Storage where
  token : Option String
  user : Option String
deriving Repr, DecidableEq

/-- The browser `File` object, restricted to the fields the handlers read
(`file.name` and `file.type`).  A missing file (`event.target.files[0]`
being `undefined`) is modelled as `Option.none` at the call sites. -/
structure FileInput where
  name : String
  type : String
deriving Repr, DecidableEq

/-- JavaScript values needed to embed the `part_001` upload guard
`!file.type === 'application/pdf'` with JS semantics. -/
inductive JSVal
  | bool (b : Bool)
  | str (s : String)
deriving Repr, DecidableEq

/-- JS truthiness for the values we model: a boolean is itself, a string is
truthy iff non-empty. -/
def JSVal.truthy : JSVal → Bool
  | .bool b => b
  | .str s => !(s == "")

/-- JS logical not `!v`: a boolean negating the truthiness of `v`. -/
def jsNot (v : JSVal) : JSVal := .bool (!v.truthy)

/-- JS strict equality `===`: values of different runtime types are never
strictly equal. -/
def jsStrictEq : JSVal → JSVal → Bool
  | .bool a, .bool b => a == b
  | .str a, .str b => a == b
  | _, _ => false

/-- JS `String.prototype.trim()`: the string with whitespace removed from
both ends, computed structurally over the character list. -/
def jsTrim (s : String) : String :=
  ⟨(((s.data.dropWhile Char.isWhitespace).reverse.dropWhile Char.isWhitespace).reverse)⟩

namespace Codigo

/-!  Anonymous session-id variant, `src/codigo/frontend/src/App.js`. -/

/-- The container state of `src/codigo/frontend/src/App.js` (the
`useState` fields participating in the verified claims; the immutable
session id / default user are request payload only and omitted). -/
structure AppState where
  currentView : String
  chatMessages : List ChatMsg
  currentMessage : String
  isLoading : Bool
  userHistory : List HistEntry
  suggestions : List String
  uploadedFile : Option UploadedFile
  fileProcessing : Bool
deriving Repr, DecidableEq

/-- Initial view of this variant: `useState('chat')` (App.js line 13). -/
def initialView : String := "chat"

/-- Outcome of the `POST /api/chat` fetch, supplied as an oracle:
a parsed 2xx JSON body (`answer`, optional `sources`), a non-2xx response
(status and body text), or a thrown network error. -/
inductive ChatResult
  | ok (answer : String) (sources : Option (List String))
  | httpError (status : Nat) (body : String)
  | netError (msg : String)
deriving Repr, DecidableEq

/-- True when the chat call failed (non-2xx or thrown). -/
def ChatResult.isFailure : ChatResult → Bool
  | .ok _ _ => false
  | .httpError _ _ => true
  | .netError _ => true

/-- The `error.message` the catch block sees: the success branch throws
`HTTP status: body` on non-2xx; a network error carries its own message. -/
def chatErrorMsg : ChatResult → String
  | .ok _ _ => ""
  | .httpError s body => "HTTP " ++ toString s ++ ": " ++ body
  | .netError m => m

/-- `handleSendMessage` (App.js lines 72-145).  Inputs: the state, the
current clock string (`new Date().toLocaleTimeString()`), and the fetch
outcome.  Guards: empty trimmed message or in-flight request return
silently; a missing file alerts and returns.  Otherwise the user message
(id `length+1`) is appended, the request is issued, and either the bot
answer (id `length+2`, stale closure over the pre-send length) or an
error-flagged bot message (id `prevMessages.length+2`, where
`prevMessages` already holds the user message) is appended; `finally`
clears the loading flag. -/
def handleSendMessage (st : AppState) (now : String) (res : ChatResult) :
    AppState × List Effect :=
  if (jsTrim st.currentMessage) == "" || st.isLoading then (st, [])
  else
    match st.uploadedFile with
    | none =>
        (st, [.alert "Por favor, faça o upload de um arquivo PDF antes de fazer perguntas."])
    | some _ =>
        let userMsg : ChatMsg :=
          ⟨st.chatMessages.length + 1, st.currentMessage, "user", now, [], false⟩
        let afterUser := st.chatMessages ++ [userMsg]
        match res with
        | .ok answer sources =>
            let botMsg : ChatMsg :=
              ⟨st.chatMessages.length + 2, answer, "bot", now, sources.getD [], false⟩
            ({ st with
                chatMessages := afterUser ++ [botMsg]
                currentMessage := ""
                suggestions := []
                isLoading := false },
             [.request .chat])
        | other =>
            let errMsg : ChatMsg :=
              ⟨afterUser.length + 2,
               "Desculpe, não consegui obter uma resposta. Erro: " ++ chatErrorMsg other,
               "bot", now, [], true⟩
            ({ st with
                chatMessages := afterUser ++ [errMsg]
                currentMessage := ""
                suggestions := []
                isLoading := false },
             [.request .chat])

/-- Outcome of the `POST /api/upload/` fetch: a parsed 2xx JSON body
(optional `file_id`, `summary`, optional `file_removed`), a non-2xx
response, or a thrown network error. -/
inductive UploadResult
  | ok (fileId : Option String) (summary : String) (fileRemoved : Option Bool)
  | httpError (status : Nat) (body : String)
  | netError (msg : String)
deriving Repr, DecidableEq

/-- JS truthiness of `data.file_id` (absent or empty string is falsy). -/
def fileIdTruthy : Option String → Bool
  | none => false
  | some s => !(s == "")

/-- The `error.message` seen by the upload catch block. -/
def uploadErrorMsg : UploadResult → String
  | .ok _ _ _ => "Resposta inválida do servidor"
  | .httpError s body => "HTTP " ++ toString s ++ ": " ++ body
  | .netError m => m

/-- `handleFileUpload` (App.js lines 162-224).  A missing file or a
non-PDF MIME type alerts and returns before any request.  Otherwise the
prior descriptor, transcript, draft message and suggestions are cleared,
the upload request is issued, and on a 2xx body with a truthy `file_id`
the descriptor is populated from the response (`id`, `summary`,
`file_removed || false`) and the selected file (`name`); any failure
alerts and leaves descriptor and transcript cleared. -/
def handleFileUpload (st : AppState) (file : Option FileInput) (now : String)
    (res : UploadResult) : AppState × List Effect :=
  match file with
  | none => (st, [.alert "Nenhum arquivo selecionado."])
  | some f =>
      if !(f.type == "application/pdf") then
        (st, [.alert "Apenas arquivos PDF são aceitos."])
      else
        let st1 := { st with
          uploadedFile := none
          chatMessages := []
          currentMessage := ""
          suggestions := []
          fileProcessing := true }
        match res with
        | .ok fid summary fileRemoved =>
            if fileIdTruthy fid then
              ({ st1 with
                  uploadedFile := some ⟨fid.getD "", f.name, summary, now, fileRemoved.getD false⟩
                  fileProcessing := false },
               [.request .upload,
                .alert ("Arquivo \"" ++ f.name ++ "\" processado com sucesso!")])
            else
              ({ st1 with uploadedFile := none, chatMessages := [], fileProcessing := false },
               [.request .upload,
                .alert ("Falha ao processar arquivo: " ++ uploadErrorMsg (.ok fid summary fileRemoved))])
        | other =>
            ({ st1 with uploadedFile := none, chatMessages := [], fileProcessing := false },
             [.request .upload,
              .alert ("Falha ao processar arquivo: " ++ uploadErrorMsg other)])

/-- Outcome of the `GET /api/history` fetch: a parsed 2xx JSON body with
an optional `history` field, a non-2xx response, or a network error. -/
inductive HistoryResult
  | ok (history : Option (List HistEntry))
  | httpError (status : Nat)
  | netError
deriving Repr, DecidableEq

/-- `fetchUserHistory` (App.js lines 256-282).  The request is always
issued; on success the mirror becomes `data.history || []`, on any failure
it becomes `[]` (the catch only logs); `finally` clears the flag. -/
def fetchUserHistory (st : AppState) (res : HistoryResult) :
    AppState × List Effect :=
  match res with
  | .ok h => ({ st with userHistory := h.getD [], isLoading := false }, [.request .history])
  | .httpError _ => ({ st with userHistory := [], isLoading := false }, [.request .history])
  | .netError => ({ st with userHistory := [], isLoading := false }, [.request .history])

/-- `handleLogout` (App.js lines 285-314).  Gated on `window.confirm`
(supplied as input); when confirmed it issues the history DELETE (whose
own failure is swallowed), clears transcript, descriptor, history mirror,
draft and suggestions, and alerts.  It never writes `currentView`. -/
def handleLogout (st : AppState) (confirmClear : Bool) : AppState × List Effect :=
  if confirmClear then
    ({ st with
        chatMessages := []
        uploadedFile := none
        userHistory := []
        currentMessage := ""
        suggestions := [] },
     [.request .historyDelete, .alert "Dados da sessão limpos com sucesso."])
  else (st, [])

/-- The ChatView send-button disabled predicate
(`src/unnamed/part_002` line 370):
`isLoading || !currentMessage.trim() || !uploadedFile`. -/
def sendButtonDisabled (st : AppState) : Bool :=
  st.isLoading || (jsTrim st.currentMessage) == "" || st.uploadedFile.isNone

/-- The HistoryView mount effect (`src/unnamed/part_003` lines 15-19):
`useEffect` runs on mount and calls the `fetchUserHistory` prop. -/
def historyViewMount (st : AppState) (res : HistoryResult) :
    AppState × List Effect :=
  fetchUserHistory st res

end Codigo

namespace TokenAuth

/-!  Token-authenticated variant, `src/unnamed/part_001` lines 1-319. -/

/-- The container state of the token-authenticated App variant. -/
structure AppState where
  user : Option UserRec
  currentView : String
  chatMessages : List ChatMsg
  currentMessage : String
  isLoading : Bool
  userHistory : List HistEntry
  suggestions : List String
  uploadedFile : Option UploadedFile001
  fileProcessing : Bool
deriving Repr, DecidableEq

/-- Initial view of this variant: `useState('login')` (part_001 line 10). -/
def initialView : String := "login"

/-- `handleLogout` (part_001 lines 64-72): clears the user record,
transcript and descriptor, returns to the login view, removes the stored
token and user, and alerts. -/
def handleLogout (st : AppState) (_store : Storage) :
    AppState × Storage × List Effect :=
  ({ st with
      user := none
      chatMessages := []
      uploadedFile := none
      currentView := "login" },
   ⟨none, none⟩,
   [.alert "Você foi desconectado."])

/-- Outcome of this variant's `POST /api/chat` fetch.  Non-2xx responses
carry the status so the `response.status === 401` branch can be taken. -/
inductive ChatResult
  | ok (answer : String) (sources : Option (List String))
  | httpError (status : Nat)
  | netError (msg : String)
deriving Repr, DecidableEq

/-- The `error.message` seen by this variant's chat catch block. -/
def chatErrorMsg : ChatResult → String
  | .ok _ _ => ""
  | .httpError s => "HTTP error! status: " ++ toString s
  | .netError m => m

/-- `handleSendMessage` (part_001 lines 93-168).  Same guards as the
anonymous variant; a 401 response alerts, runs `handleLogout` and returns
(`finally` still clears the loading flag); any other failure appends one
error-flagged bot message with id `prevMessages.length + 2`. -/
def handleSendMessage (st : AppState) (store : Storage) (now : String)
    (res : ChatResult) : AppState × Storage × List Effect :=
  if (jsTrim st.currentMessage) == "" || st.isLoading then (st, store, [])
  else
    match st.uploadedFile with
    | none =>
        (st, store,
         [.alert "Por favor, faça o upload de um arquivo PDF antes de fazer perguntas."])
    | some _ =>
        let userMsg : ChatMsg :=
          ⟨st.chatMessages.length + 1, st.currentMessage, "user", now, [], false⟩
        let afterUser := st.chatMessages ++ [userMsg]
        let st1 := { st with
          chatMessages := afterUser
          currentMessage := ""
          suggestions := [] }
        match res with
        | .ok answer sources =>
            let botMsg : ChatMsg :=
              ⟨st.chatMessages.length + 2, answer, "bot", now, sources.getD [], false⟩
            ({ st1 with chatMessages := afterUser ++ [botMsg], isLoading := false },
             store, [.request .chat])
        | .httpError 401 =>
            let (st2, store2, effs) := handleLogout st1 store
            ({ st2 with isLoading := false }, store2,
             [.request .chat, .alert "Sessão expirada. Por favor, faça login novamente."] ++ effs)
        | other =>
            let errMsg : ChatMsg :=
              ⟨afterUser.length + 2,
               "Desculpe, não consegui obter uma resposta. Por favor, tente novamente. (Erro: "
                 ++ chatErrorMsg other ++ ")",
               "bot", now, [], true⟩
            ({ st1 with chatMessages := afterUser ++ [errMsg], isLoading := false },
             store, [.request .chat])

/-- Outcome of this variant's `POST /api/upload` fetch: the body is parsed
first, then `response.ok` decides between success (optional `file_id`,
`summary`) and a thrown `data.detail || statusText` error. -/
inductive UploadResult
  | ok (fileId : Option String) (summary : String)
  | httpError (detail : Option String) (statusText : String)
  | netError (msg : String)
deriving Repr, DecidableEq

/-- The `error.message` seen by this variant's upload catch block. -/
def uploadErrorMsg : UploadResult → String
  | .ok _ _ => ""
  | .httpError d statusText => d.getD ("Erro ao processar arquivo: " ++ statusText)
  | .netError m => m

/-- `handleFileUpload` (part_001 lines 185-234; identical guard in the
no-auth copy at lines 460-510).  The non-PDF guard is the JS expression
`!file.type === 'application/pdf'`, which compares a boolean against a
string and is therefore never true — the intended rejection is
unreachable, so every selected file proceeds to the network request.  On
success the descriptor is populated (the transcript is cleared only
then); on failure only an alert is shown. -/
def handleFileUpload (st : AppState) (_store : Storage) (file : Option FileInput)
    (now : String) (res : UploadResult) : AppState × List Effect :=
  match file with
  | none => (st, [.alert "Nenhum arquivo selecionado."])
  | some f =>
      if jsStrictEq (jsNot (.str f.type)) (.str "application/pdf") then
        (st, [.alert "Apenas arquivos PDF são aceitos."])
      else
        let st1 := { st with fileProcessing := true }
        match res with
        | .ok fid summary =>
            ({ st1 with
                uploadedFile := some ⟨fid.getD "", f.name, summary, now⟩
                chatMessages := []
                fileProcessing := false },
             [.request .upload,
              .alert ("Arquivo \"" ++ f.name ++ "\" processado com sucesso!")])
        | other =>
            ({ st1 with fileProcessing := false },
             [.request .upload,
              .alert ("Falha ao processar arquivo: " ++ uploadErrorMsg other)])

/-- Outcome of this variant's `GET /api/history` fetch.  The success body
stores `data.history` as-is (a response without the field leaves the
mirror undefined, which the history view renders as empty; modelled as
the empty list). -/
inductive HistoryResult
  | ok (history : Option (List HistEntry))
  | httpError (status : Nat)
  | netError
deriving Repr, DecidableEq

/-- `fetchUserHistory` (part_001 lines 237-259).  Without a logged-in user
it returns before any request.  Every non-2xx status — including 401 —
takes the generic catch: the mirror is cleared and nothing else happens
(no alert, no logout, no storage change). -/
def fetchUserHistory (st : AppState) (store : Storage) (res : HistoryResult) :
    AppState × Storage × List Effect :=
  match st.user with
  | none => (st, store, [])
  | some _ =>
      match res with
      | .ok h =>
          ({ st with userHistory := h.getD [], isLoading := false }, store,
           [.request .history])
      | .httpError _ =>
          ({ st with userHistory := [], isLoading := false }, store,
           [.request .history])
      | .netError =>
          ({ st with userHistory := [], isLoading := false }, store,
           [.request .history])

end TokenAuth

namespace Login

/-!  Login/register form,
`src/frontend/src/components/LoginView/LoginView.js`. -/

/-- The registration form fields. -/
structure RegisterData where
  name : String
  email : String
  password : String
  confirmPassword : String
deriving Repr, DecidableEq

/-- Character class `[^\s@]` of the email regular expression. -/
def okEmailChar (c : Char) : Bool := !c.isWhitespace && !(c == '@')

/-- Whether the character list has a `'.'` with at least one character
before it and one after it. -/
def interiorDot (l : List Char) : Bool :=
  (List.range l.length).any fun j =>
    decide (1 ≤ j) && decide (j + 2 ≤ l.length) && (l.getD j ' ' == '.')

/-- `validateEmail` (LoginView.js lines 26-29): whether the string matches
`/^[^\s@]+@[^\s@]+\.[^\s@]+$/`.  Since `[^\s@]` excludes `@`, the matched
`@` is the first one of the string and a match decomposes the string as
`a @ rest` with `a` non-empty over `[^\s@]`, and `rest` entirely over
`[^\s@]` with some dot that is neither its first nor its last character
(the literal `.` is itself in `[^\s@]`, so the two `[^\s@]+` halves around
it are subsumed by `rest.all okEmailChar`). -/
def validateEmail (s : String) : Bool :=
  let cs := s.data
  match cs.findIdx? (· == '@') with
  | none => false
  | some i =>
      let a := cs.take i
      let rest := cs.drop (i + 1)
      !a.isEmpty && a.all okEmailChar && !rest.isEmpty && rest.all okEmailChar
        && interiorDot rest

/-- `validateRegisterForm` (LoginView.js lines 45-72): the sequential
checks, each failure alerting and returning `false`. -/
def validateRegisterForm (rd : RegisterData) : Bool × List Effect :=
  if rd.name == "" || rd.email == "" || rd.password == "" then
    (false, [.alert "Preencha todos os campos!"])
  else if (jsTrim rd.name).length < 2 then
    (false, [.alert "O nome deve ter pelo menos 2 caracteres!"])
  else if !validateEmail rd.email then
    (false, [.alert "Por favor, insira um email válido!"])
  else if rd.password.length < 6 then
    (false, [.alert "A senha deve ter pelo menos 6 caracteres!"])
  else if !(rd.password == rd.confirmPassword) then
    (false, [.alert "As senhas não coincidem!"])
  else (true, [])

/-- The validation condition as the claim states it: name, email and
password non-empty, trimmed name of length at least 2, email matching the
regular expression, password of length at least 6 and equal to its
confirmation. -/
def registerFormValid (rd : RegisterData) : Bool :=
  !(rd.name == "") && !(rd.email == "") && !(rd.password == "")
    && decide (2 ≤ (jsTrim rd.name).length) && validateEmail rd.email
    && decide (6 ≤ rd.password.length) && (rd.password == rd.confirmPassword)

/-- Outcome of the `POST /api/login/register` fetch. -/
inductive RegisterResult
  | ok
  | httpError (detail : Option String)
  | netError
deriving Repr, DecidableEq

/-- `handleRegister` (LoginView.js lines 108-153), projected to its
observable effects (the success-path resets of the local form fields and
tab mode are presentational state not involved in any claim).  Validation
failure surfaces the validation alert and issues no request; otherwise the
request is issued and its outcome alerted. -/
def handleRegister (rd : RegisterData) (res : RegisterResult) : List Effect :=
  match validateRegisterForm rd with
  | (false, effs) => effs
  | (true, _) =>
      match res with
      | .ok =>
          [.request .registerCall,
           .alert "🎉 Cadastro realizado com sucesso!\n\nAgora você pode fazer login com suas credenciais."]
      | .httpError d =>
          [.request .registerCall,
           .alert ("Erro no cadastro: " ++ d.getD "Erro desconhecido no cadastro.")]
      | .netError =>
          [.request .registerCall,
           .alert "Erro de conexão. Verifique sua internet e tente novamente."]

/-- Outcome of the `POST /api/login` fetch. -/
inductive LoginResult
  | ok (user : UserRec) (token : String)
  | httpError (detail : Option String)
  | netError
deriving Repr, DecidableEq

/-- `validateLoginForm` (LoginView.js lines 31-43). -/
def validateLoginForm (email password : String) : Bool × List Effect :=
  if email == "" || password == "" then
    (false, [.alert "Por favor, preencha email e senha!"])
  else if !validateEmail email then
    (false, [.alert "Por favor, insira um email válido!"])
  else (true, [])

/-- `handleLogin` (LoginView.js lines 75-105), projected to its observable
effects: a validation failure alerts without a request; a non-2xx response
alerts `Erro no login`; a thrown network error alerts the connection
message.  The success path hands `data.user`/`data.access_token` to
`onLoginSuccess`, which is container state, not an alert. -/
def handleLogin (email password : String) (res : LoginResult) : List Effect :=
  match validateLoginForm email password with
  | (false, effs) => effs
  | (true, _) =>
      match res with
      | .ok _ _ => [.request .login]
      | .httpError d =>
          [.request .login,
           .alert ("Erro no login: " ++ d.getD "Email ou senha incorretos.")]
      | .netError =>
          [.request .login,
           .alert "Erro de conexão. Verifique sua internet e tente novamente."]

end Login

/-!  Scenario helpers: message ids, repeated sends, and concrete states
used to instantiate the theorems. -/

/-- The ids of a transcript, in order. -/
def idsOf (l : List ChatMsg) : List Nat := l.map ChatMsg.id

/-- Membership of a natural number in a list. -/
def memNat (x : Nat) : List Nat → Bool
  | [] => false
  | y :: ys => (y == x) || memNat x ys

/-- Whether all elements of the list are pairwise distinct. -/
def distinctIds : List Nat → Bool
  | [] => true
  | x :: xs => !(memNat x xs) && distinctIds xs

/-- The consecutive naturals `[s, s+1, ..., s+n-1]`. -/
def natsFrom (s : Nat) : Nat → List Nat
  | 0 => []
  | n + 1 => s :: natsFrom (s + 1) n

/-- A fixed uploaded-file descriptor, for states where a file is present. -/
def sampleFile : UploadedFile := ⟨"file_1", "doc.pdf", "resumo", "2024-01-01", false⟩

/-- The anonymous-variant state in which `handleSendMessage` repeatedly
fires: chat view, the given transcript and draft question, not loading,
with `sampleFile` uploaded. -/
def mkSendState (msgs : List ChatMsg) (q : String) : Codigo.AppState :=
  { currentView := "chat", chatMessages := msgs, currentMessage := q,
    isLoading := false, userHistory := [], suggestions := [],
    uploadedFile := some sampleFile, fileProcessing := false }

/-- The transcript produced by one completed `handleSendMessage` call on
the given transcript, question and network outcome. -/
def sendOnMessages (msgs : List ChatMsg) (q : String) (res : Codigo.ChatResult) :
    List ChatMsg :=
  ((Codigo.handleSendMessage (mkSendState msgs q) "t0" res).1).chatMessages

/-- The transcript after a sequence of completed `handleSendMessage`
calls, each given by its question and network outcome. -/
def runSends (msgs : List ChatMsg) (ops : List (String × Codigo.ChatResult)) :
    List ChatMsg :=
  ops.foldl (fun m op => sendOnMessages m op.1 op.2) msgs

/-- True on a successful chat outcome. -/
def Codigo.ChatResult.isOk : Codigo.ChatResult → Bool
  | .ok _ _ => true
  | _ => false

/-- True on a failed history fetch outcome. -/
def Codigo.HistoryResult.isFailure : Codigo.HistoryResult → Bool
  | .ok _ => false
  | _ => true

/-- An anonymous-variant state with a draft question but no uploaded file. -/
def noFileState : Codigo.AppState :=
  { currentView := "chat", chatMessages := [], currentMessage := "qual o resumo?",
    isLoading := false, userHistory := [], suggestions := [],
    uploadedFile := none, fileProcessing := false }

/-- An anonymous-variant state ready to send: draft question, not loading,
file uploaded. -/
def readyState : Codigo.AppState := { noFileState with uploadedFile := some sampleFile }

/-- An anonymous-variant state sitting on the history view with a
non-empty history mirror. -/
def histState : Codigo.AppState :=
  { readyState with currentView := "history", userHistory := [⟨"q", "a", "t", []⟩] }

/-- A logged-in user of the token-authenticated variant. -/
def sampleUser : UserRec := ⟨"ana@exemplo.com", "Ana"⟩

/-- A populated credential store of the token-authenticated variant. -/
def sampleStore : Storage := ⟨some "tok123", some "ana-json"⟩

/-- A fixed uploaded-file descriptor of the `part_001` shape. -/
def sampleFile001 : UploadedFile001 := ⟨"file_1", "doc.pdf", "resumo", "2024-01-01"⟩

/-- A token-authenticated state that is logged in, on the chat view, with
a file uploaded and a draft question. -/
def authState : TokenAuth.AppState :=
  { user := some sampleUser, currentView := "chat", chatMessages := [],
    currentMessage := "qual o resumo?", isLoading := false, userHistory := [],
    suggestions := [], uploadedFile := some sampleFile001,
    fileProcessing := false }

/-- A non-PDF browser file. -/
def txtFile : FileInput := ⟨"notas.txt", "text/plain"⟩

/-- A PDF browser file. -/
def pdfFile : FileInput := ⟨"doc.pdf", "application/pdf"⟩

/-- C1: in every state of the anonymous view container, `handleSendMessage`
leaves the state — in particular the chat transcript — unchanged and
issues no network request whenever the trimmed draft message is empty, a
request is already in flight, or no uploaded-file descriptor is present;
in the no-file case (non-empty draft, no request in flight) it surfaces a
blocking alert.  The ChatView send button is disabled under exactly the
union of these conditions. -/
theorem send_guard_noop (st : Codigo.AppState) (now : String) (res : Codigo.ChatResult)
    (h : (jsTrim st.currentMessage) = "" ∨ st.isLoading = true ∨ st.uploadedFile = none) :
    (Codigo.handleSendMessage st now res).1 = st ∧
    hasRequest (Codigo.handleSendMessage st now res).2 = false ∧
    Codigo.sendButtonDisabled st = true ∧
    ((jsTrim st.currentMessage) ≠ "" → st.isLoading = false → st.uploadedFile = none →
      hasAlert (Codigo.handleSendMessage st now res).2 = true) := by
  obtain h1 | h2 | h3 := h
  · simp [Codigo.handleSendMessage, Codigo.sendButtonDisabled, hasRequest, h1]
  · simp [Codigo.handleSendMessage, Codigo.sendButtonDisabled, hasRequest, h2]
  · by_cases hq : (jsTrim st.currentMessage) = ""
    · simp [Codigo.handleSendMessage, Codigo.sendButtonDisabled, hasRequest, hq, h3]
    · by_cases hl : st.isLoading = true
      · simp [Codigo.handleSendMessage, Codigo.sendButtonDisabled, hasRequest, hl, h3]
      · have hl' : st.isLoading = false := by
          cases hb : st.isLoading
          · rfl
          · exact absurd hb hl
        simp [Codigo.handleSendMessage, Codigo.sendButtonDisabled, hasRequest, hasAlert,
          Effect.isRequest, Effect.isAlert, hq, hl', h3]

/-- Witness for `send_guard_noop` at a concrete no-file state. -/
theorem send_guard_noop_witness :
    (Codigo.handleSendMessage noFileState "10:00" (Codigo.ChatResult.netError "x")).1
        = noFileState ∧
    hasRequest (Codigo.handleSendMessage noFileState "10:00"
        (Codigo.ChatResult.netError "x")).2 = false ∧
    Codigo.sendButtonDisabled noFileState = true ∧
    ((jsTrim noFileState.currentMessage) ≠ "" → noFileState.isLoading = false →
      noFileState.uploadedFile = none →
      hasAlert (Codigo.handleSendMessage noFileState "10:00"
        (Codigo.ChatResult.netError "x")).2 = true) :=
  send_guard_noop noFileState "10:00" (Codigo.ChatResult.netError "x")
    (Or.inr (Or.inr rfl))

/-- C2: evaluation at the failing input.  In the `part_001` variants the
guard `!file.type === 'application/pdf'` compares a boolean to a string
and never fires, so a `text/plain` file is not rejected: the upload
request is issued and the rejection alert never appears — while the
anonymous variant (`codigo`) rejects the very same file with the alert and
no request, matching the evidently intended behaviour. -/
theorem upload001_accepts_nonpdf :
    hasRequest (TokenAuth.handleFileUpload authState sampleStore (some txtFile) "t0"
        (TokenAuth.UploadResult.ok (some "fid") "resumo")).2 = true ∧
    Effect.alert "Apenas arquivos PDF são aceitos." ∉
      (TokenAuth.handleFileUpload authState sampleStore (some txtFile) "t0"
        (TokenAuth.UploadResult.ok (some "fid") "resumo")).2 ∧
    (Codigo.handleFileUpload readyState (some txtFile) "t0"
        (Codigo.UploadResult.ok (some "fid") "resumo" none)).2
      = [Effect.alert "Apenas arquivos PDF são aceitos."] ∧
    hasRequest (Codigo.handleFileUpload readyState (some txtFile) "t0"
        (Codigo.UploadResult.ok (some "fid") "resumo" none)).2 = false := by
  decide

/-- C3: a successful upload (2xx body with a truthy `file_id`) in the
anonymous variant ends with an empty transcript, empty suggestions and a
cleared draft, and a descriptor whose id, summary and temporary flag come
from the response and whose name comes from the selected file. -/
theorem upload_success_resets (st : Codigo.AppState) (f : FileInput) (now : String)
    (fid summary : String) (fileRemoved : Option Bool)
    (hf : f.type = "application/pdf") (hfid : fid ≠ "") :
    (Codigo.handleFileUpload st (some f) now
        (Codigo.UploadResult.ok (some fid) summary fileRemoved)).1.chatMessages = [] ∧
    (Codigo.handleFileUpload st (some f) now
        (Codigo.UploadResult.ok (some fid) summary fileRemoved)).1.suggestions = [] ∧
    (Codigo.handleFileUpload st (some f) now
        (Codigo.UploadResult.ok (some fid) summary fileRemoved)).1.currentMessage = "" ∧
    (Codigo.handleFileUpload st (some f) now
        (Codigo.UploadResult.ok (some fid) summary fileRemoved)).1.uploadedFile
      = some ⟨fid, f.name, summary, now, fileRemoved.getD false⟩ := by
  simp [Codigo.handleFileUpload, Codigo.fileIdTruthy, hf, hfid]

/-- Witness for `upload_success_resets` at a concrete state and response. -/
theorem upload_success_resets_witness :
    (Codigo.handleFileUpload histState (some pdfFile) "t1"
        (Codigo.UploadResult.ok (some "f9") "sumario" (some true))).1.chatMessages = [] ∧
    (Codigo.handleFileUpload histState (some pdfFile) "t1"
        (Codigo.UploadResult.ok (some "f9") "sumario" (some true))).1.suggestions = [] ∧
    (Codigo.handleFileUpload histState (some pdfFile) "t1"
        (Codigo.UploadResult.ok (some "f9") "sumario" (some true))).1.currentMessage = "" ∧
    (Codigo.handleFileUpload histState (some pdfFile) "t1"
        (Codigo.UploadResult.ok (some "f9") "sumario" (some true))).1.uploadedFile
      = some ⟨"f9", pdfFile.name, "sumario", "t1", (some true).getD false⟩ :=
  upload_success_resets histState pdfFile "t1" "f9" "sumario" (some true) rfl (by decide)

/-- Helper: the transcript produced by a failed chat call in the anonymous
variant is the old transcript followed by the user message (id `len+1`)
and one error-flagged bot message (id `len+3`, since the error handler
reads the length of the list that already holds the user message). -/
theorem send_failure_transcript (st : Codigo.AppState) (now : String)
    (res : Codigo.ChatResult)
    (hq : (jsTrim st.currentMessage) ≠ "") (hl : st.isLoading = false)
    (f : UploadedFile) (hf : st.uploadedFile = some f)
    (hres : res.isFailure = true) :
    (Codigo.handleSendMessage st now res).1.chatMessages =
      st.chatMessages ++
        [⟨st.chatMessages.length + 1, st.currentMessage, "user", now, [], false⟩,
         ⟨st.chatMessages.length + 1 + 2,
          "Desculpe, não consegui obter uma resposta. Erro: " ++ Codigo.chatErrorMsg res,
          "bot", now, [], true⟩] := by
  cases res with
  | ok a s => simp [Codigo.ChatResult.isFailure] at hres
  | httpError s b => simp [Codigo.handleSendMessage, hq, hl, hf]
  | netError m => simp [Codigo.handleSendMessage, hq, hl, hf]

/-- C4: when the chat request of the anonymous variant fails (non-2xx or
network error), exactly one error-flagged bot message is appended after
the user message that was appended at send time; the rest of the
transcript is untouched. -/
theorem chat_failure_single_error (st : Codigo.AppState) (now : String)
    (res : Codigo.ChatResult)
    (hq : (jsTrim st.currentMessage) ≠ "") (hl : st.isLoading = false)
    (f : UploadedFile) (hf : st.uploadedFile = some f)
    (hres : res.isFailure = true) :
    ∃ errMsg : ChatMsg,
      (Codigo.handleSendMessage st now res).1.chatMessages =
        st.chatMessages ++
          [⟨st.chatMessages.length + 1, st.currentMessage, "user", now, [], false⟩,
           errMsg] ∧
      errMsg.sender = "bot" ∧ errMsg.isError = true :=
  ⟨⟨st.chatMessages.length + 1 + 2,
    "Desculpe, não consegui obter uma resposta. Erro: " ++ Codigo.chatErrorMsg res,
    "bot", now, [], true⟩,
   send_failure_transcript st now res hq hl f hf hres, rfl, rfl⟩

/-- Witness for `chat_failure_single_error` at a concrete state and network
failure. -/
theorem chat_failure_single_error_witness :
    ∃ errMsg : ChatMsg,
      (Codigo.handleSendMessage readyState "t0"
          (Codigo.ChatResult.netError "offline")).1.chatMessages =
        readyState.chatMessages ++
          [⟨readyState.chatMessages.length + 1, readyState.currentMessage, "user", "t0",
            [], false⟩,
           errMsg] ∧
      errMsg.sender = "bot" ∧ errMsg.isError = true :=
  chat_failure_single_error readyState "t0" (Codigo.ChatResult.netError "offline")
    (by decide) rfl sampleFile rfl rfl

/-- C5: mounting the history view issues exactly one history fetch, and
the resulting local mirror is a function of the response alone — wholesale
replacement, independent of the previous mirror and of the rest of the
state — being the response's history list (`data.history || []`) on
success and the empty list on failure. -/
theorem history_mount_replaces (st st' : Codigo.AppState) (res : Codigo.HistoryResult) :
    (Codigo.historyViewMount st res).2 = [Effect.request NetCall.history] ∧
    (Codigo.historyViewMount st res).1.userHistory
      = (Codigo.historyViewMount st' res).1.userHistory ∧
    (Codigo.historyViewMount st res).1.userHistory
      = (match res with
         | Codigo.HistoryResult.ok h => h.getD []
         | Codigo.HistoryResult.httpError _ => []
         | Codigo.HistoryResult.netError => []) := by
  cases res <;> simp [Codigo.historyViewMount, Codigo.fetchUserHistory]

/-- C6 counterexample: in the anonymous variant a confirmed logout from
the history view leaves the view at `history`, not at the variant's
initial `chat` view — `handleLogout` never writes `currentView`. -/
theorem logout_view_counterexample :
    (Codigo.handleLogout histState true).1.currentView = "history" ∧
    Codigo.initialView = "chat" ∧
    (Codigo.handleLogout histState true).1.currentView ≠ Codigo.initialView := by
  decide

/-- C6 (amended): a confirmed logout clears the transcript and the file
descriptor in both variants; the token-authenticated variant additionally
clears the user record and the stored token and user and returns to its
initial login view, while the anonymous variant also clears history,
draft and suggestions but leaves the current view unchanged. -/
theorem logout_clears_state (stA : TokenAuth.AppState) (store : Storage)
    (stC : Codigo.AppState) :
    (TokenAuth.handleLogout stA store).1.chatMessages = [] ∧
    (TokenAuth.handleLogout stA store).1.uploadedFile = none ∧
    (TokenAuth.handleLogout stA store).1.user = none ∧
    (TokenAuth.handleLogout stA store).2.1.token = none ∧
    (TokenAuth.handleLogout stA store).2.1.user = none ∧
    (TokenAuth.handleLogout stA store).1.currentView = TokenAuth.initialView ∧
    (Codigo.handleLogout stC true).1.chatMessages = [] ∧
    (Codigo.handleLogout stC true).1.uploadedFile = none ∧
    (Codigo.handleLogout stC true).1.userHistory = [] ∧
    (Codigo.handleLogout stC true).1.currentMessage = "" ∧
    (Codigo.handleLogout stC true).1.suggestions = [] ∧
    (Codigo.handleLogout stC true).1.currentView = stC.currentView := by
  simp [TokenAuth.handleLogout, Codigo.handleLogout, TokenAuth.initialView]

/-- C7 counterexample: a failed history fetch in the anonymous variant
surfaces no blocking alert, against the claim that upload, history and
login failures all alert; only the mirror is replaced by the empty list. -/
theorem history_failure_silent :
    hasAlert (Codigo.fetchUserHistory readyState (Codigo.HistoryResult.httpError 500)).2
        = false ∧
    (Codigo.fetchUserHistory readyState
        (Codigo.HistoryResult.httpError 500)).1.userHistory = [] := by
  decide

/-- C7 (amended): failing gateway calls are surfaced except the history
ones: a non-2xx upload response and a non-2xx login response raise
blocking alerts, a failed chat call appends one inline error-flagged bot
message, while a failed history fetch raises no alert and is visible only
through the mirror being replaced by the empty list. -/
theorem errors_surfaced
    (stU : Codigo.AppState) (f : FileInput) (now : String) (s : Nat) (b : String)
    (hf : f.type = "application/pdf")
    (stS : Codigo.AppState) (nowS : String) (resS : Codigo.ChatResult)
    (hq : (jsTrim stS.currentMessage) ≠ "") (hl : stS.isLoading = false)
    (fl : UploadedFile) (hfl : stS.uploadedFile = some fl)
    (hres : resS.isFailure = true)
    (e p : String) (hv : (Login.validateLoginForm e p).1 = true) (d : Option String)
    (stH : Codigo.AppState) (resH : Codigo.HistoryResult)
    (hH : resH.isFailure = true) :
    hasAlert (Codigo.handleFileUpload stU (some f) now
        (Codigo.UploadResult.httpError s b)).2 = true ∧
    (Codigo.handleSendMessage stS nowS resS).1.chatMessages =
      stS.chatMessages ++
        [⟨stS.chatMessages.length + 1, stS.currentMessage, "user", nowS, [], false⟩,
         ⟨stS.chatMessages.length + 1 + 2,
          "Desculpe, não consegui obter uma resposta. Erro: " ++ Codigo.chatErrorMsg resS,
          "bot", nowS, [], true⟩] ∧
    hasAlert (Login.handleLogin e p (Login.LoginResult.httpError d)) = true ∧
    hasAlert (Codigo.fetchUserHistory stH resH).2 = false ∧
    (Codigo.fetchUserHistory stH resH).1.userHistory = [] := by
  refine ⟨?_, send_failure_transcript stS nowS resS hq hl fl hfl hres, ?_, ?_, ?_⟩
  · simp [Codigo.handleFileUpload, hf, hasAlert, Effect.isAlert]
  · rcases hp : Login.validateLoginForm e p with ⟨bb, effs⟩
    rw [hp] at hv
    simp only at hv
    subst hv
    simp [Login.handleLogin, hp, hasAlert, Effect.isAlert, Effect.isRequest]
  · cases resH with
    | ok h => simp [Codigo.HistoryResult.isFailure] at hH
    | httpError s2 => simp [Codigo.fetchUserHistory, hasAlert, Effect.isAlert, Effect.isRequest]
    | netError => simp [Codigo.fetchUserHistory, hasAlert, Effect.isAlert, Effect.isRequest]
  · cases resH with
    | ok h => simp [Codigo.HistoryResult.isFailure] at hH
    | httpError s2 => simp [Codigo.fetchUserHistory]
    | netError => simp [Codigo.fetchUserHistory]

/-- Witness for `errors_surfaced` at concrete states and failures. -/
theorem errors_surfaced_witness :
    hasAlert (Codigo.handleFileUpload noFileState (some pdfFile) "t0"
        (Codigo.UploadResult.httpError 500 "boom")).2 = true ∧
    (Codigo.handleSendMessage readyState "t0"
        (Codigo.ChatResult.netError "offline")).1.chatMessages =
      readyState.chatMessages ++
        [⟨readyState.chatMessages.length + 1, readyState.currentMessage, "user", "t0",
          [], false⟩,
         ⟨readyState.chatMessages.length + 1 + 2,
          "Desculpe, não consegui obter uma resposta. Erro: "
            ++ Codigo.chatErrorMsg (Codigo.ChatResult.netError "offline"),
          "bot", "t0", [], true⟩] ∧
    hasAlert (Login.handleLogin "a@b.co" "123456" (Login.LoginResult.httpError none)) = true ∧
    hasAlert (Codigo.fetchUserHistory readyState Codigo.HistoryResult.netError).2 = false ∧
    (Codigo.fetchUserHistory readyState Codigo.HistoryResult.netError).1.userHistory = [] :=
  errors_surfaced noFileState pdfFile "t0" 500 "boom" rfl
    readyState "t0" (Codigo.ChatResult.netError "offline") (by decide) rfl sampleFile rfl rfl
    "a@b.co" "123456" (by decide) none
    readyState Codigo.HistoryResult.netError rfl

/-- C8 counterexample: in the token-authenticated variant a 401 on the
history fetch does not force a logout: the user record, the current view
and the stored credentials are all untouched (only the mirror is
cleared), against the claim that every 401 forces a logout. -/
theorem history_401_no_logout :
    (TokenAuth.fetchUserHistory authState sampleStore
        (TokenAuth.HistoryResult.httpError 401)).1.user = some sampleUser ∧
    (TokenAuth.fetchUserHistory authState sampleStore
        (TokenAuth.HistoryResult.httpError 401)).1.currentView = "chat" ∧
    (TokenAuth.fetchUserHistory authState sampleStore
        (TokenAuth.HistoryResult.httpError 401)).2.1 = sampleStore := by
  decide

/-- C8 (amended): in the token-authenticated variant only the chat call
reacts specially to a 401 — it alerts and forces a logout: user record
cleared, stored token and user removed, login view, transcript cleared.
A 401 on the history fetch is handled as a generic failure: the mirror is
cleared while the user record, the view and the stored credentials stay
unchanged. -/
theorem chat401_forces_logout (stA : TokenAuth.AppState) (store : Storage) (now : String)
    (hq : (jsTrim stA.currentMessage) ≠ "") (hl : stA.isLoading = false)
    (f : UploadedFile001) (hf : stA.uploadedFile = some f)
    (stH : TokenAuth.AppState) (storeH : Storage) (u : UserRec) (hu : stH.user = some u) :
    (TokenAuth.handleSendMessage stA store now (TokenAuth.ChatResult.httpError 401)).1.user
        = none ∧
    (TokenAuth.handleSendMessage stA store now
        (TokenAuth.ChatResult.httpError 401)).1.currentView = "login" ∧
    (TokenAuth.handleSendMessage stA store now
        (TokenAuth.ChatResult.httpError 401)).1.chatMessages = [] ∧
    (TokenAuth.handleSendMessage stA store now
        (TokenAuth.ChatResult.httpError 401)).2.1 = (⟨none, none⟩ : Storage) ∧
    hasAlert (TokenAuth.handleSendMessage stA store now
        (TokenAuth.ChatResult.httpError 401)).2.2 = true ∧
    (TokenAuth.fetchUserHistory stH storeH
        (TokenAuth.HistoryResult.httpError 401)).1.user = some u ∧
    (TokenAuth.fetchUserHistory stH storeH
        (TokenAuth.HistoryResult.httpError 401)).1.currentView = stH.currentView ∧
    (TokenAuth.fetchUserHistory stH storeH
        (TokenAuth.HistoryResult.httpError 401)).2.1 = storeH ∧
    (TokenAuth.fetchUserHistory stH storeH
        (TokenAuth.HistoryResult.httpError 401)).1.userHistory = [] := by
  refine ⟨?_, ?_, ?_, ?_, ?_, ?_, ?_, ?_, ?_⟩ <;>
    simp [TokenAuth.handleSendMessage, TokenAuth.handleLogout, TokenAuth.fetchUserHistory,
      hq, hl, hf, hu, hasAlert, Effect.isAlert]

/-- Witness for `chat401_forces_logout` at a concrete logged-in state. -/
theorem chat401_forces_logout_witness :
    (TokenAuth.handleSendMessage authState sampleStore "t0"
        (TokenAuth.ChatResult.httpError 401)).1.user = none ∧
    (TokenAuth.handleSendMessage authState sampleStore "t0"
        (TokenAuth.ChatResult.httpError 401)).1.currentView = "login" ∧
    (TokenAuth.handleSendMessage authState sampleStore "t0"
        (TokenAuth.ChatResult.httpError 401)).1.chatMessages = [] ∧
    (TokenAuth.handleSendMessage authState sampleStore "t0"
        (TokenAuth.ChatResult.httpError 401)).2.1 = (⟨none, none⟩ : Storage) ∧
    hasAlert (TokenAuth.handleSendMessage authState sampleStore "t0"
        (TokenAuth.ChatResult.httpError 401)).2.2 = true ∧
    (TokenAuth.fetchUserHistory authState sampleStore
        (TokenAuth.HistoryResult.httpError 401)).1.user = some sampleUser ∧
    (TokenAuth.fetchUserHistory authState sampleStore
        (TokenAuth.HistoryResult.httpError 401)).1.currentView = authState.currentView ∧
    (TokenAuth.fetchUserHistory authState sampleStore
        (TokenAuth.HistoryResult.httpError 401)).2.1 = sampleStore ∧
    (TokenAuth.fetchUserHistory authState sampleStore
        (TokenAuth.HistoryResult.httpError 401)).1.userHistory = [] :=
  chat401_forces_logout authState sampleStore "t0" (by decide) rfl
    sampleFile001 rfl authState sampleStore sampleUser rfl

/-- Helper: a number strictly below the start of `natsFrom` is not in it. -/
theorem memNat_natsFrom_lt (x s n : Nat) (h : x < s) :
    memNat x (natsFrom s n) = false := by
  induction n generalizing s with
  | zero => rfl
  | succ n ih =>
      have h1 : (s == x) = false := by
        simp [Nat.ne_of_gt h]
      simp only [natsFrom, memNat, h1, Bool.false_or]
      exact ih (s + 1) (Nat.lt_succ_of_lt h)

/-- Helper: `natsFrom` has pairwise-distinct elements. -/
theorem distinctIds_natsFrom (n s : Nat) : distinctIds (natsFrom s n) = true := by
  induction n generalizing s with
  | zero => rfl
  | succ n ih =>
      simp only [natsFrom, distinctIds]
      rw [memNat_natsFrom_lt s (s + 1) n (Nat.lt_succ_self s)]
      simp [ih (s + 1)]

/-- Helper: appending the next element extends `natsFrom` by one. -/
theorem natsFrom_snoc (s n : Nat) : natsFrom s n ++ [s + n] = natsFrom s (n + 1) := by
  induction n generalizing s with
  | zero => simp [natsFrom]
  | succ n ih =>
      simp only [natsFrom, List.cons_append]
      have h2 : s + (n + 1) = (s + 1) + n := by omega
      rw [h2, ih (s + 1)]
      rfl

/-- Helper: ids and length after one completed successful send. -/
theorem send_ok_ids (msgs : List ChatMsg) (q a : String) (srcs : Option (List String))
    (hq : jsTrim q ≠ "") :
    idsOf (sendOnMessages msgs q (Codigo.ChatResult.ok a srcs))
      = idsOf msgs ++ [msgs.length + 1, msgs.length + 2] ∧
    (sendOnMessages msgs q (Codigo.ChatResult.ok a srcs)).length = msgs.length + 2 := by
  constructor <;> simp [sendOnMessages, Codigo.handleSendMessage, mkSendState, hq, idsOf]

/-- Helper: all-success runs keep the transcript ids equal to the
consecutive range starting at 1. -/
theorem runSends_ids_natsFrom (ops : List (String × Codigo.ChatResult))
    (h : ∀ p ∈ ops, p.2.isOk = true ∧ ¬(jsTrim p.1 = "")) :
    ∀ msgs, idsOf msgs = natsFrom 1 msgs.length →
      idsOf (runSends msgs ops) = natsFrom 1 (runSends msgs ops).length := by
  induction ops with
  | nil => intro msgs hm; simpa [runSends] using hm
  | cons op ops ih =>
      intro msgs hm
      obtain ⟨hok, htrim⟩ := h op (List.mem_cons_self _ _)
      have hstep : runSends msgs (op :: ops) = runSends (sendOnMessages msgs op.1 op.2) ops := by
        simp [runSends]
      rw [hstep]
      cases hres : op.2 with
      | ok a srcs =>
          have hsend := send_ok_ids msgs op.1 a srcs htrim
          apply ih (fun p hp => h p (List.mem_cons_of_mem _ hp))
          rw [hsend.1, hsend.2, hm]
          rw [← natsFrom_snoc 1 (msgs.length + 1), ← natsFrom_snoc 1 msgs.length]
          have c1 : 1 + msgs.length = msgs.length + 1 := by omega
          have c2 : 1 + (msgs.length + 1) = msgs.length + 2 := by omega
          rw [c1, c2, List.append_assoc]
          rfl
      | httpError s b => rw [hres] at hok; simp [Codigo.ChatResult.isOk] at hok
      | netError m => rw [hres] at hok; simp [Codigo.ChatResult.isOk] at hok

/-- C9 counterexample: two sends whose chat calls fail produce duplicate
ids in the anonymous variant: the first failure appends a bot message
with id 3 (the error handler reads the length of the list that already
holds the user message), and the next send appends a user message that is
also given id 3. -/
theorem send_ids_collision :
    distinctIds (idsOf (runSends []
      [("pergunta um", Codigo.ChatResult.netError "offline"),
       ("pergunta dois", Codigo.ChatResult.netError "offline")])) = false := by
  decide

/-- C9 (amended): transcript message ids are pairwise distinct for every
sequence of `handleSendMessage` operations from the empty transcript in
which every chat call succeeds (they are then exactly `1..2k`); once a
call fails, the error-flagged bot message takes id `length + 3`, which
collides with the user-message id of the following send. -/
theorem send_ids_distinct_all_ok (ops : List (String × Codigo.ChatResult))
    (h : ∀ p ∈ ops, p.2.isOk = true ∧ ¬(jsTrim p.1 = "")) :
    distinctIds (idsOf (runSends [] ops)) = true := by
  have hids := runSends_ids_natsFrom ops h [] rfl
  rw [hids]
  exact distinctIds_natsFrom _ _

/-- Witness for `send_ids_distinct_all_ok` on a one-element sequence. -/
theorem send_ids_distinct_all_ok_witness :
    distinctIds (idsOf (runSends []
      [("pergunta", Codigo.ChatResult.ok "resposta" none)])) = true :=
  send_ids_distinct_all_ok [("pergunta", Codigo.ChatResult.ok "resposta" none)] (by decide)

/-- Helper: the boolean result of the sequential registration validation
equals the conjunction of the claim's conditions. -/
theorem validateRegisterForm_fst (rd : Login.RegisterData) :
    (Login.validateRegisterForm rd).1 = Login.registerFormValid rd := by
  unfold Login.validateRegisterForm
  split_ifs with h1 h2 h3 h4 h5
  · rcases (by simpa using h1 : (rd.name = "" ∨ rd.email = "") ∨ rd.password = "") with
      (h | h) | h <;> simp [Login.registerFormValid, h]
  · have hx : ¬(2 ≤ (jsTrim rd.name).length) := by omega
    simp [Login.registerFormValid, hx]
  · have hx : Login.validateEmail rd.email = false := by simpa using h3
    simp [Login.registerFormValid, hx]
  · have hx : ¬(6 ≤ rd.password.length) := by omega
    simp [Login.registerFormValid, hx]
  · have hx : (rd.password == rd.confirmPassword) = false := by simpa using h5
    simp [Login.registerFormValid, hx]
  · have hn : (¬rd.name = "" ∧ ¬rd.email = "") ∧ ¬rd.password = "" := by simpa using h1
    obtain ⟨⟨hn1, hn2⟩, hn3⟩ := hn
    have g2 : 2 ≤ (jsTrim rd.name).length := by omega
    have g4 : 6 ≤ rd.password.length := by omega
    have g3 : Login.validateEmail rd.email = true := by simpa using h3
    have g5 : (rd.password == rd.confirmPassword) = true := by simpa using h5
    simp [Login.registerFormValid, hn1, hn2, hn3, g2, g3, g4, g5]

/-- Helper: a failing validation produces one blocking alert and no
request. -/
theorem validateRegisterForm_alerts (rd : Login.RegisterData)
    (h : (Login.validateRegisterForm rd).1 = false) :
    hasAlert (Login.validateRegisterForm rd).2 = true ∧
    hasRequest (Login.validateRegisterForm rd).2 = false := by
  unfold Login.validateRegisterForm at h ⊢
  split_ifs at h ⊢ <;>
    simp_all [hasAlert, hasRequest, Effect.isAlert, Effect.isRequest]

/-- C10: `handleRegister` issues the network request iff the registration
form passes validation — name, email and password non-empty, trimmed name
of length at least 2, email matching the email regular expression,
password of length at least 6 and equal to its confirmation; when any
condition fails, an alert is shown and no request is made. -/
theorem register_request_iff_valid (rd : Login.RegisterData) (res : Login.RegisterResult) :
    (hasRequest (Login.handleRegister rd res) = true ↔ Login.registerFormValid rd = true) ∧
    (Login.registerFormValid rd = false →
      hasAlert (Login.handleRegister rd res) = true ∧
      hasRequest (Login.handleRegister rd res) = false) := by
  have hfst := validateRegisterForm_fst rd
  rcases hp : Login.validateRegisterForm rd with ⟨bb, effs⟩
  rw [hp] at hfst
  simp only at hfst
  cases bb with
  | false =>
      have hval : Login.registerFormValid rd = false := hfst.symm
      have halerts := validateRegisterForm_alerts rd (by rw [hp])
      have h2 : (Login.validateRegisterForm rd).2 = effs := by rw [hp]
      rw [h2] at halerts
      have hr : Login.handleRegister rd res = effs := by
        unfold Login.handleRegister
        rw [hp]
      rw [hr]
      constructor
      · simp [hval, halerts.2]
      · intro _
        exact ⟨halerts.1, halerts.2⟩
  | true =>
      have hval : Login.registerFormValid rd = true := hfst.symm
      have hr : ∃ tail, Login.handleRegister rd res
          = Effect.request NetCall.registerCall :: tail := by
        unfold Login.handleRegister
        rw [hp]
        cases res
        · exact ⟨_, rfl⟩
        · exact ⟨_, rfl⟩
        · exact ⟨_, rfl⟩
      obtain ⟨tail, ht⟩ := hr
      rw [ht]
      constructor
      · simp [hasRequest, Effect.isRequest, hval]
      · intro hcon
        rw [hval] at hcon
        cases hcon

/-- Witness for `register_request_iff_valid`: a too-short password alerts
and issues no request. -/
theorem register_request_iff_valid_witness :
    Login.registerFormValid ⟨"Ana Silva", "ana@exemplo.com", "123", "123"⟩ = false ∧
    hasAlert (Login.handleRegister ⟨"Ana Silva", "ana@exemplo.com", "123", "123"⟩
        Login.RegisterResult.ok) = true ∧
    hasRequest (Login.handleRegister ⟨"Ana Silva", "ana@exemplo.com", "123", "123"⟩
        Login.RegisterResult.ok) = false :=
  ⟨by decide,
   ((register_request_iff_valid ⟨"Ana Silva", "ana@exemplo.com", "123", "123"⟩
       Login.RegisterResult.ok).2 (by decide)).1,
   ((register_request_iff_valid ⟨"Ana Silva", "ana@exemplo.com", "123", "123"⟩
       Login.RegisterResult.ok).2 (by decide)).2⟩
